import Mathlib

/-!
A shallow embedding of the `node-ncbi` gateway layer
(`src/gateways/createGateway.js` and `src/gateways/index.js`).

JavaScript objects holding URL parameters are modelled as ordered
association lists (`Params`); since the parameter objects are mutated in
place by `_.extend` and may be shared between gateways, they live in an
explicit heap (`Heap`) and a gateway stores a reference (index) to its
parameter object, mirroring JavaScript reference semantics.
-/

set_option maxRecDepth 100000

namespace NodeNcbi

/-- JavaScript primitive values that flow through the gateway code:
strings, numbers (the values used are integers) and booleans. -/
inductive Value where
  | vStr : String → Value
  | vNum : Int → Value
  | vBool : Bool → Value
deriving DecidableEq

/-- Whether a value is a string (`typeof v === 'string'`). -/
def Value.isStr : Value → Bool
  | .vStr _ => true
  | _ => false

/-- JavaScript `ToString` on the values above, as used by string
concatenation (`url + key + '=' + value`) and `Array.prototype.join`. -/
def valueToString : Value → String
  | .vStr s => s
  | .vNum n => toString n
  | .vBool b => if b then "true" else "false"

/-- A parameter object: string keys to values, in insertion order
(`for...in` iterates non-numeric keys in insertion order). -/
abbrev Params := List (String × Value)

/-- JavaScript property assignment `obj[k] = v`: an existing key keeps its
position and gets the new value, a new key is appended. -/
def setKey : Params → String → Value → Params
  | [], k, v => [(k, v)]
  | (k0, v0) :: rest, k, v =>
      if k0 = k then (k, v) :: rest else (k0, v0) :: setKey rest k v

/-- Underscore's `_.extend(dest, src)`: assign every property of `src`
onto `dest`, in `src`'s key order (mutating `dest`; the mutation itself is
performed through the heap below). -/
def extendParams (dest src : Params) : Params :=
  src.foldl (fun d kv => setKey d kv.1 kv.2) dest

/-- Property read `obj[k]`: `some v` when present, `none` = `undefined`. -/
def lookupParam : Params → String → Option Value
  | [], _ => none
  | (k0, v0) :: rest, k => if k0 = k then some v0 else lookupParam rest k

/-- The heap of parameter objects; a reference is an index. -/
abbrev Heap := List Params

/-- Allocate a fresh object (e.g. an object literal); returns the new heap
and the reference to the object. -/
def Heap.alloc (h : Heap) (p : Params) : Heap × Nat :=
  (h ++ [p], h.length)

/-- Dereference. An out-of-range reference never arises from the code. -/
def Heap.read : Heap → Nat → Params
  | [], _ => []
  | p :: _, 0 => p
  | _ :: rest, n + 1 => Heap.read rest n

/-- Overwrite the object behind a reference (in-place mutation). -/
def Heap.write : Heap → Nat → Params → Heap
  | [], _, _ => []
  | _ :: rest, 0, p => p :: rest
  | q :: rest, n + 1, p => q :: Heap.write rest n p

/-- The argument object accepted by `createGateway` (`index.js` passes the
keys `documentType` and `params`, and `pubmedRecord` also `responseType`;
`createGateway`'s defaults cover `method`, `responseType`, `params`,
`test`). `none` means the key is absent from the argument object. The
`params` key holds a reference to the caller's object, as in JavaScript. -/
structure Args where
  method : Option Value := none
  responseType : Option Value := none
  params : Option Nat := none
  test : Option Value := none
  documentType : Option Value := none

/-- The `settings` object built by the constructor:
`_.extend({method:'esearch', responseType:'json', params:{}, test:false}, args)`. -/
structure Settings where
  method : Value
  responseType : Value
  paramsRef : Nat
  test : Value
  documentType : Option Value
deriving DecidableEq

/-- A gateway object. Its only own property set by the code is `settings`;
`testProp` and `methodProp` model the own properties `this.test` and
`this.method` read by `send`/`get`, which the constructor never sets, so
they default to `none` (= `undefined`). -/
structure Gateway where
  settings : Settings
  testProp : Option Value := none
  methodProp : Option Value := none
deriving DecidableEq

/-- `Gateway.getBase`: the base URL built from `this.settings.method`. -/
def Gateway.getBase (g : Gateway) : String :=
  "http://eutils.ncbi.nlm.nih.gov/entrez/eutils/" ++
    valueToString g.settings.method ++ ".fcgi?"

/-- `Gateway.addParams(params)`: `_.extend(this.settings.params, params)`
and return `this.settings.params`. Returns the new heap and the contents
of the returned object. -/
def Gateway.addParams (h : Heap) (g : Gateway) (ps : Params) : Heap × Params :=
  let merged := extendParams (Heap.read h g.settings.paramsRef) ps
  (Heap.write h g.settings.paramsRef merged, merged)

/-- The argument of `addIds`: a single value or an array. -/
inductive Ids where
  | scalar : Value → Ids
  | arr : List Value → Ids
deriving DecidableEq

/-- `Array.prototype.join()` with the default separator. -/
def joinIds (l : List Value) : String :=
  String.intercalate "," (l.map valueToString)

/-- `Gateway.addIds(ids)`: `_.isArray(ids) ? ids.join() : ids`, then
`addParams({id : idString})`. -/
def Gateway.addIds (h : Heap) (g : Gateway) (ids : Ids) : Heap × Params :=
  let idString : Value :=
    match ids with
    | .arr l => .vStr (joinIds l)
    | .scalar v => v
  Gateway.addParams h g [("id", idString)]

/-- Hexadecimal digit (uppercase), for percent-encoding. -/
def hexDigit (n : Nat) : Char :=
  if n < 10 then Char.ofNat (48 + n) else Char.ofNat (55 + n)

/-- `%XX` escape of one byte. -/
def percentByte (b : Nat) : String :=
  String.mk [Char.ofNat 37, hexDigit (b / 16), hexDigit (b % 16)]

/-- UTF-8 code units of a code point. -/
def utf8Units (c : Char) : List Nat :=
  let n := c.toNat
  if n < 128 then [n]
  else if n < 2048 then [192 + n / 64, 128 + n % 64]
  else if n < 65536 then [224 + n / 4096, 128 + (n / 64) % 64, 128 + n % 64]
  else [240 + n / 262144, 128 + (n / 4096) % 64, 128 + (n / 64) % 64, 128 + n % 64]

/-- The characters JavaScript's `encodeURI` leaves unescaped: ASCII
alphanumerics, the unreserved marks, and the URI-reserved characters
including the separators. `Char.ofNat 39` is the apostrophe mark. -/
def isUriKeep (c : Char) : Bool :=
  c.isAlpha || c.isDigit || c == Char.ofNat 39 ||
    ";/?:@&=+$,-_.!~*()#".data.contains c

/-- JavaScript `encodeURI`: percent-encode the UTF-8 bytes of every
character outside the kept set, over the whole string. -/
def encodeURI (s : String) : String :=
  String.join (s.data.map fun c =>
    if isUriKeep c then String.mk [c]
    else String.join ((utf8Units c).map percentByte))

/-- `url.substring(0, url.length - 1)`: drop the last character. -/
def dropLastChar (s : String) : String :=
  String.mk s.data.dropLast

/-- `Gateway.generateUrl`: base ++ `key=value&` per parameter in iteration
order, strip the final character, then `encodeURI` the whole URL. -/
def Gateway.generateUrl (h : Heap) (g : Gateway) : String :=
  let url := (Heap.read h g.settings.paramsRef).foldl
    (fun u kv => u ++ kv.1 ++ "=" ++ valueToString kv.2 ++ "&")
    (Gateway.getBase g)
  encodeURI (dropLastChar url)

/-- JavaScript truthiness of a possibly-absent value (`if (this.test)`). -/
def truthy : Option Value → Bool
  | none => false
  | some (.vBool b) => b
  | some (.vStr s) => s ≠ ""
  | some (.vNum n) => n ≠ 0

/-- The observable outcome of `Gateway.send`: either a promise resolved
with a string without any I/O (test branch), or an HTTP GET issued to the
given URL (the `popsicle({method:'GET', url})` call). -/
inductive SendResult where
  | resolved : String → SendResult
  | networkGet : String → SendResult
deriving DecidableEq

/-- `Gateway.send`: branches on `this.test` (an own property the
constructor never sets; it stores the flag in `this.settings.test`). -/
def Gateway.send (h : Heap) (g : Gateway) : SendResult :=
  let url := Gateway.generateUrl h g
  if truthy g.testProp then
    .resolved ("Test call to NCBI eUtils: " ++ url)
  else
    .networkGet url

/-- A successful HTTP response as seen by the `then` callback. -/
structure Response where
  status : Nat
  body : String
deriving DecidableEq

/-- Modelled from the spec: the external parser factory `createParser`
(`require('../documents')`, not under src/) is per the spec an opaque
collaborator `parse(body, method) -> Document`, so a parser is modelled as
the record of the two arguments it receives; `none` = `undefined`. -/
structure Parser where
  body : Option String
  method : Option Value
deriving DecidableEq

/-- Modelled from the spec: `createParser(body, method)` builds the opaque
document parser from exactly its two arguments. -/
def createParser (body : Option String) (method : Option Value) : Parser :=
  { body := body, method := method }

/-- `Gateway.get(callback)`: `this.send().then(document => ...)`. The
transport is the outcome of the HTTP GET (error = rejected promise).
In the (dead) test branch the resolved value is a string, whose `.body`
is `undefined`. `this.method` is the own property `methodProp`. -/
def Gateway.get {α : Type} (h : Heap) (g : Gateway)
    (transport : String → Except String Response) (callback : Parser → α) :
    Except String α :=
  match Gateway.send h g with
  | .resolved _ => .ok (callback (createParser none g.methodProp))
  | .networkGet url =>
      match transport url with
      | .error e => .error e
      | .ok resp => .ok (callback (createParser (some resp.body) g.methodProp))

/-- The constructor exported by `createGateway.js`: extend the defaults
literal with `args` (note the fresh `params : {}` object allocated by the
defaults literal is used only when `args` carries no `params` key —
otherwise the caller's object is shared by reference), then
`gateway.addParams({retmode: gateway.settings.responseType})`. -/
def createGateway (h : Heap) (args : Args) : Heap × Gateway :=
  let alloc0 := Heap.alloc h []
  let pRef := args.params.getD alloc0.2
  let settings : Settings :=
    { method := args.method.getD (Value.vStr "esearch")
      responseType := args.responseType.getD (Value.vStr "json")
      paramsRef := pRef
      test := args.test.getD (Value.vBool false)
      documentType := args.documentType }
  let g : Gateway := { settings := settings }
  let h2 := (Gateway.addParams alloc0.1 g [("retmode", settings.responseType)]).1
  (h2, g)

/-- `pubmedSearch(query, start, end)` from `index.js` (`end` is renamed
`finish`, a reserved word): allocates the params literal and calls
`createGateway` with the keys `documentType` and `params`. -/
def pubmedSearch (h : Heap) (query : Value) (start finish : Int) : Heap × Gateway :=
  let alloc0 := Heap.alloc h
    [("db", Value.vStr "pubmed"), ("term", query),
     ("retstart", Value.vNum start), ("retmax", Value.vNum (finish - start))]
  createGateway alloc0.1
    { documentType := some (Value.vStr "esearch"), params := some alloc0.2 }

/-- `pubmedSummary(ids)` from `index.js`. -/
def pubmedSummary (h : Heap) (ids : Ids) : Heap × Gateway :=
  let alloc0 := Heap.alloc h [("db", Value.vStr "pubmed")]
  let created := createGateway alloc0.1
    { documentType := some (Value.vStr "esummary"), params := some alloc0.2 }
  ((Gateway.addIds created.1 created.2 ids).1, created.2)

/-- `pubmedRecord(ids)` from `index.js`: also passes `responseType:'xml'`. -/
def pubmedRecord (h : Heap) (ids : Ids) : Heap × Gateway :=
  let alloc0 := Heap.alloc h [("db", Value.vStr "pubmed")]
  let created := createGateway alloc0.1
    { documentType := some (Value.vStr "efetch")
      responseType := some (Value.vStr "xml")
      params := some alloc0.2 }
  ((Gateway.addIds created.1 created.2 ids).1, created.2)

/-- `pubmedLinks(id)` from `index.js`. -/
def pubmedLinks (h : Heap) (id : Ids) : Heap × Gateway :=
  let alloc0 := Heap.alloc h
    [("db", Value.vStr "pubmed"), ("dbfrom", Value.vStr "pubmed"),
     ("cmd", Value.vStr "neighbor")]
  let created := createGateway alloc0.1
    { documentType := some (Value.vStr "elink"), params := some alloc0.2 }
  ((Gateway.addIds created.1 created.2 id).1, created.2)

/-- An operation mutating a gateway's parameters after construction. -/
inductive GOp where
  | opAddParams : Params → GOp
  | opAddIds : Ids → GOp

/-- Apply one mutation operation to the heap through a gateway. -/
def applyOp (g : Gateway) (h : Heap) : GOp → Heap
  | .opAddParams ps => (Gateway.addParams h g ps).1
  | .opAddIds ids => (Gateway.addIds h g ids).1

/-- Apply a sequence of mutation operations. -/
def applyOps (g : Gateway) (h : Heap) (ops : List GOp) : Heap :=
  ops.foldl (applyOp g) h

/-- An operation that does not itself write the `retmode` key. -/
def benignOp : GOp → Bool
  | .opAddParams ps => !((ps.map Prod.fst).contains "retmode")
  | .opAddIds _ => true

/-! ### Helper lemmas about the parameter-object and heap operations -/

theorem lookupParam_setKey_self (p : Params) (k : String) (v : Value) :
    lookupParam (setKey p k v) k = some v := by
  induction p with
  | nil => simp [setKey, lookupParam]
  | cons kv rest ih =>
      obtain ⟨k0, v0⟩ := kv
      by_cases hk : k0 = k
      · simp [setKey, hk, lookupParam]
      · simp [setKey, hk, lookupParam, ih]

theorem lookupParam_setKey_ne (p : Params) (k0 k : String) (v : Value)
    (hne : k0 ≠ k) :
    lookupParam (setKey p k0 v) k = lookupParam p k := by
  induction p with
  | nil => simp [setKey, lookupParam, hne]
  | cons kv rest ih =>
      obtain ⟨k1, v1⟩ := kv
      by_cases hk : k1 = k0
      · subst hk
        simp [setKey, lookupParam, hne]
      · simp [setKey, hk, lookupParam, ih]

theorem extendParams_cons (dest : Params) (kv : String × Value) (src : Params) :
    extendParams dest (kv :: src) = extendParams (setKey dest kv.1 kv.2) src := rfl

theorem lookupParam_extendParams_not_mem (src : Params) (dest : Params) (k : String)
    (hk : k ∉ src.map Prod.fst) :
    lookupParam (extendParams dest src) k = lookupParam dest k := by
  induction src generalizing dest with
  | nil => rfl
  | cons kv rest ih =>
      rw [extendParams_cons]
      have hk1 : kv.1 ≠ k := by
        intro hcon
        exact hk (by simp [hcon])
      have hkrest : k ∉ rest.map Prod.fst := by
        intro hcon
        exact hk (by simp [hcon])
      rw [ih _ hkrest, lookupParam_setKey_ne _ _ _ _ hk1]

theorem lookupParam_extendParams_mem (src : Params) (dest : Params) (k : String)
    (v : Value) (hnd : (src.map Prod.fst).Nodup) (hmem : (k, v) ∈ src) :
    lookupParam (extendParams dest src) k = some v := by
  induction src generalizing dest with
  | nil => cases hmem
  | cons kv rest ih =>
      rw [List.map_cons] at hnd
      rw [extendParams_cons]
      rcases List.mem_cons.mp hmem with hhead | htail
      · subst hhead
        have hkrest : k ∉ rest.map Prod.fst := (List.nodup_cons.mp hnd).1
        rw [lookupParam_extendParams_not_mem _ _ _ hkrest]
        exact lookupParam_setKey_self _ _ _
      · exact ih _ (List.nodup_cons.mp hnd).2 htail

theorem Heap.write_length (h : Heap) (r : Nat) (p : Params) :
    (Heap.write h r p).length = h.length := by
  induction h generalizing r with
  | nil => rfl
  | cons q rest ih =>
      cases r with
      | zero => rfl
      | succ n => simpa [Heap.write] using ih n

theorem Heap.read_write_self (h : Heap) (r : Nat) (p : Params)
    (hr : r < h.length) :
    Heap.read (Heap.write h r p) r = p := by
  induction h generalizing r with
  | nil => simp at hr
  | cons q rest ih =>
      cases r with
      | zero => rfl
      | succ n => exact ih n (by simpa using hr)

theorem Heap.read_write_ne (h : Heap) (r0 r : Nat) (p : Params)
    (hne : r0 ≠ r) :
    Heap.read (Heap.write h r0 p) r = Heap.read h r := by
  induction h generalizing r0 r with
  | nil => rfl
  | cons q rest ih =>
      cases r0 with
      | zero =>
          cases r with
          | zero => exact absurd rfl hne
          | succ m => rfl
      | succ n =>
          cases r with
          | zero => rfl
          | succ m => exact ih n m (by omega)

theorem createGateway_paramsRef_default (h : Heap) (a : Args)
    (ha : a.params = none) :
    (createGateway h a).2.settings.paramsRef = h.length := by
  simp [createGateway, ha, Heap.alloc]

theorem createGateway_heap_length (h : Heap) (a : Args) :
    (createGateway h a).1.length = h.length + 1 := by
  simp [createGateway, Gateway.addParams, Heap.write_length, Heap.alloc]

theorem read_addParams_other (h : Heap) (g : Gateway) (ps : Params) (r : Nat)
    (hne : g.settings.paramsRef ≠ r) :
    Heap.read (Gateway.addParams h g ps).1 r = Heap.read h r := by
  simp [Gateway.addParams, Heap.read_write_ne _ _ _ _ hne]

theorem read_addIds_other (h : Heap) (g : Gateway) (ids : Ids) (r : Nat)
    (hne : g.settings.paramsRef ≠ r) :
    Heap.read (Gateway.addIds h g ids).1 r = Heap.read h r := by
  simp [Gateway.addIds, read_addParams_other _ _ _ _ hne]

theorem retmode_invariant_step (g : Gateway) (h : Heap) (op : GOp) (w : Value)
    (hr : g.settings.paramsRef < h.length)
    (hl : lookupParam (Heap.read h g.settings.paramsRef) "retmode" = some w)
    (hb : benignOp op = true) :
    g.settings.paramsRef < (applyOp g h op).length ∧
    lookupParam (Heap.read (applyOp g h op) g.settings.paramsRef) "retmode"
      = some w := by
  cases op with
  | opAddParams ps =>
      have hnotin : "retmode" ∉ ps.map Prod.fst := by
        simpa [benignOp, List.contains_iff_exists_mem_beq] using hb
      constructor
      · simpa [applyOp, Gateway.addParams, Heap.write_length] using hr
      · simp only [applyOp, Gateway.addParams]
        rw [Heap.read_write_self _ _ _ hr,
          lookupParam_extendParams_not_mem _ _ _ hnotin, hl]
  | opAddIds ids =>
      constructor
      · simpa [applyOp, Gateway.addIds, Gateway.addParams, Heap.write_length]
          using hr
      · simp only [applyOp, Gateway.addIds, Gateway.addParams]
        rw [Heap.read_write_self _ _ _ hr,
          lookupParam_extendParams_not_mem _ _ _ (by simp)]
        exact hl

theorem extendParams_singleton (dest : Params) (kv : String × Value) :
    extendParams dest [kv] = setKey dest kv.1 kv.2 := rfl

theorem createGateway_eq (h : Heap) (args : Args) :
    createGateway h args =
      (Heap.write (h ++ [[]]) (args.params.getD h.length)
        (extendParams (Heap.read (h ++ [[]]) (args.params.getD h.length))
          [("retmode", args.responseType.getD (Value.vStr "json"))]),
       { settings :=
          { method := args.method.getD (Value.vStr "esearch")
            responseType := args.responseType.getD (Value.vStr "json")
            paramsRef := args.params.getD h.length
            test := args.test.getD (Value.vBool false)
            documentType := args.documentType } }) := rfl

theorem createGateway_paramsRef_lt (h : Heap) (args : Args)
    (hwf : ∀ r, args.params = some r → r < h.length) :
    (createGateway h args).2.settings.paramsRef < (createGateway h args).1.length := by
  rw [createGateway_eq]
  dsimp
  rw [Heap.write_length]
  simp only [List.length_append, List.length_singleton]
  cases hp : args.params with
  | none => simp
  | some r => simpa [hp] using Nat.lt_succ_of_lt (hwf r hp)

theorem createGateway_retmode (h : Heap) (args : Args)
    (hwf : ∀ r, args.params = some r → r < h.length) :
    lookupParam
      (Heap.read (createGateway h args).1 (createGateway h args).2.settings.paramsRef)
      "retmode" = some (createGateway h args).2.settings.responseType := by
  have hlt : args.params.getD h.length < (h ++ [[]]).length := by
    simp only [List.length_append, List.length_singleton]
    cases hp : args.params with
    | none => simp
    | some r => simpa [hp] using Nat.lt_succ_of_lt (hwf r hp)
  rw [createGateway_eq]
  dsimp
  rw [Heap.read_write_self _ _ _ hlt]
  exact lookupParam_extendParams_mem _ _ _ _ (by simp) (by simp)

theorem retmode_invariant_ops (g : Gateway) (h : Heap) (ops : List GOp)
    (w : Value)
    (hr : g.settings.paramsRef < h.length)
    (hl : lookupParam (Heap.read h g.settings.paramsRef) "retmode" = some w)
    (hb : ∀ op ∈ ops, benignOp op = true) :
    lookupParam (Heap.read (applyOps g h ops) g.settings.paramsRef) "retmode"
      = some w := by
  induction ops generalizing h with
  | nil => exact hl
  | cons op rest ih =>
      have step := retmode_invariant_step g h op w hr hl
        (hb op (List.mem_cons_self _ _))
      exact ih (applyOp g h op) step.1 step.2
        (fun o ho => hb o (List.mem_cons_of_mem _ ho))

/-! ### Claim theorems -/

/-- Claim C1 (code evaluated at the failing input): the named constructor
`pubmedSummary` asks for the `esummary` method (it passes
`documentType : 'esummary'`), yet the generated URL starts with the
`esearch` base path, because `createGateway` reads `settings.method`,
which keeps its default `'esearch'`. So the URL does not start with the
base path of the method the constructor was asked for. -/
theorem c1_named_constructor_url_uses_default_method :
    (Gateway.generateUrl (pubmedSummary [] (Ids.arr [Value.vNum 123])).1
        (pubmedSummary [] (Ids.arr [Value.vNum 123])).2
      = "http://eutils.ncbi.nlm.nih.gov/entrez/eutils/esearch.fcgi?db=pubmed&retmode=json&id=123") ∧
    (pubmedSummary [] (Ids.arr [Value.vNum 123])).2.settings.method
      = Value.vStr "esearch" ∧
    (pubmedSummary [] (Ids.arr [Value.vNum 123])).2.settings.documentType
      = some (Value.vStr "esummary") :=
  ⟨by decide, rfl, rfl⟩

/-- Claim C2 (code evaluated at the failing input): a gateway constructed
with the `test` argument set to `true` stores the flag in
`settings.test`, but `send` branches on the own property `this.test`
(absent, hence `undefined`), so `send` issues the network GET instead of
resolving with the test string. -/
theorem c2_testMode_send_performs_network_call :
    (Gateway.send (createGateway [] { test := some (Value.vBool true) }).1
        (createGateway [] { test := some (Value.vBool true) }).2
      = SendResult.networkGet
          "http://eutils.ncbi.nlm.nih.gov/entrez/eutils/esearch.fcgi?retmode=json") ∧
    (createGateway [] { test := some (Value.vBool true) }).2.settings.test
      = Value.vBool true :=
  ⟨by decide, rfl⟩

/-- Claim C3 (code evaluated at the failing input): on a successful send,
`get` builds the parser from the response body but passes `this.method`
(absent own property, hence `undefined` = `none`) as the method argument,
not the gateway's method name `settings.method = 'esearch'`; on a failed
send the failure does propagate unchanged without invoking the handler. -/
theorem c3_get_parser_method_undefined :
    (Gateway.get (pubmedSearch [] (Value.vStr "cancer") 0 20).1
        (pubmedSearch [] (Value.vStr "cancer") 0 20).2
        (fun _ => Except.ok { status := 200, body := "BODY" }) (fun p => p)
      = Except.ok { body := some "BODY", method := none }) ∧
    (pubmedSearch [] (Value.vStr "cancer") 0 20).2.settings.method
      = Value.vStr "esearch" ∧
    (Gateway.get (pubmedSearch [] (Value.vStr "cancer") 0 20).1
        (pubmedSearch [] (Value.vStr "cancer") 0 20).2
        (fun _ => Except.error "ECONNREFUSED") (fun p => some p.body)
      = Except.error "ECONNREFUSED") :=
  ⟨rfl, rfl, rfl⟩

/-- Claim C4, counterexample: after construction (responseFormat `json`),
a single `addParams` call that carries a `retmode` key leaves the
parameter `retmode = xml` while the gateway's responseFormat is still
`json`, so the format-mirroring invariant is not preserved by every
operation. -/
theorem c4_retmode_invariant_counterexample :
    (let c := createGateway [] {}
     let a := Gateway.addParams c.1 c.2 [("retmode", Value.vStr "xml")]
     lookupParam (Heap.read a.1 c.2.settings.paramsRef) "retmode"
         = some (Value.vStr "xml") ∧
       c.2.settings.responseType = Value.vStr "json") ∧
    Value.vStr "xml" ≠ Value.vStr "json" :=
  ⟨⟨rfl, rfl⟩, by decide⟩

/-- Claim C4 (amended): after construction the parameter mapping contains
`retmode` mirroring the gateway's responseFormat, and the invariant is
preserved by every `addIds` call and by every `addParams` call whose
argument does not itself contain the `retmode` key. -/
theorem c4_retmode_invariant_amended (h : Heap) (args : Args) (ops : List GOp)
    (hwf : ∀ r, args.params = some r → r < h.length)
    (hben : ∀ op ∈ ops, benignOp op = true) :
    lookupParam
      (Heap.read (applyOps (createGateway h args).2 (createGateway h args).1 ops)
        (createGateway h args).2.settings.paramsRef) "retmode"
      = some (createGateway h args).2.settings.responseType :=
  retmode_invariant_ops _ _ _ _
    (createGateway_paramsRef_lt h args hwf)
    (createGateway_retmode h args hwf) hben

/-- Witness for the amended C4: a concrete gateway and a concrete benign
sequence of one `addIds` and one `addParams` call. -/
theorem c4_retmode_invariant_amended_witness :
    (∀ op ∈ [GOp.opAddIds (Ids.arr [Value.vNum 5]),
        GOp.opAddParams [("db", Value.vStr "pubmed")]], benignOp op = true) ∧
    lookupParam
      (Heap.read
        (applyOps (createGateway [] {}).2 (createGateway [] {}).1
          [GOp.opAddIds (Ids.arr [Value.vNum 5]),
           GOp.opAddParams [("db", Value.vStr "pubmed")]])
        (createGateway [] {}).2.settings.paramsRef) "retmode"
      = some (createGateway [] {}).2.settings.responseType :=
  ⟨by decide,
    c4_retmode_invariant_amended [] {} _
      (fun r hr => Option.noConfusion hr) (by decide)⟩

/-- Claim C5, counterexample: two gateways created from the same argument
object carrying a `params` mapping share that very object (by reference),
so an `addParams` on the first becomes visible through the second. -/
theorem c5_shared_params_counterexample :
    (let a0 := Heap.alloc [] []
     let args : Args := { params := some a0.2 }
     let c1 := createGateway a0.1 args
     let c2 := createGateway c1.1 args
     let m := Gateway.addParams c2.1 c1.2 [("foo", Value.vStr "bar")]
     lookupParam (Heap.read c2.1 c2.2.settings.paramsRef) "foo" = none ∧
       lookupParam (Heap.read m.1 c2.2.settings.paramsRef) "foo"
         = some (Value.vStr "bar")) :=
  ⟨rfl, rfl⟩

/-- Claim C5 (amended): gateways created from argument objects that do not
supply a `params` object own distinct parameter objects, and mutating one
gateway's parameters via `addParams` or `addIds` leaves the other
gateway's parameters unchanged. -/
theorem c5_no_sharing_amended (h : Heap) (a1 a2 : Args) (ps : Params)
    (ids : Ids) (ha1 : a1.params = none) (ha2 : a2.params = none) :
    let c1 := createGateway h a1
    let c2 := createGateway c1.1 a2
    c1.2.settings.paramsRef ≠ c2.2.settings.paramsRef ∧
    (Heap.read (Gateway.addParams c2.1 c1.2 ps).1 c2.2.settings.paramsRef
        = Heap.read c2.1 c2.2.settings.paramsRef) ∧
    (Heap.read (Gateway.addIds c2.1 c1.2 ids).1 c2.2.settings.paramsRef
        = Heap.read c2.1 c2.2.settings.paramsRef) ∧
    (Heap.read (Gateway.addParams c2.1 c2.2 ps).1 c1.2.settings.paramsRef
        = Heap.read c2.1 c1.2.settings.paramsRef) ∧
    (Heap.read (Gateway.addIds c2.1 c2.2 ids).1 c1.2.settings.paramsRef
        = Heap.read c2.1 c1.2.settings.paramsRef) := by
  intro c1 c2
  have hr1 : c1.2.settings.paramsRef = h.length :=
    createGateway_paramsRef_default h a1 ha1
  have hr2 : c2.2.settings.paramsRef = h.length + 1 := by
    have hd := createGateway_paramsRef_default c1.1 a2 ha2
    rw [hd, createGateway_heap_length]
  have hne : c1.2.settings.paramsRef ≠ c2.2.settings.paramsRef := by
    rw [hr1, hr2]; omega
  exact ⟨hne, read_addParams_other _ _ _ _ hne, read_addIds_other _ _ _ _ hne,
    read_addParams_other _ _ _ _ (Ne.symm hne),
    read_addIds_other _ _ _ _ (Ne.symm hne)⟩

/-- Witness for the amended C5: two concrete gateways built from empty
argument objects, one concrete `addParams` and one concrete `addIds`. -/
theorem c5_no_sharing_amended_witness :
    ({} : Args).params = none ∧
    (let c1 := createGateway [] {}
     let c2 := createGateway c1.1 {}
     c1.2.settings.paramsRef ≠ c2.2.settings.paramsRef ∧
     (Heap.read (Gateway.addParams c2.1 c1.2 [("foo", Value.vStr "bar")]).1
          c2.2.settings.paramsRef
        = Heap.read c2.1 c2.2.settings.paramsRef) ∧
     (Heap.read (Gateway.addIds c2.1 c1.2 (Ids.scalar (Value.vNum 1))).1
          c2.2.settings.paramsRef
        = Heap.read c2.1 c2.2.settings.paramsRef) ∧
     (Heap.read (Gateway.addParams c2.1 c2.2 [("foo", Value.vStr "bar")]).1
          c1.2.settings.paramsRef
        = Heap.read c2.1 c1.2.settings.paramsRef) ∧
     (Heap.read (Gateway.addIds c2.1 c2.2 (Ids.scalar (Value.vNum 1))).1
          c1.2.settings.paramsRef
        = Heap.read c2.1 c1.2.settings.paramsRef)) :=
  ⟨rfl, c5_no_sharing_amended [] {} {} [("foo", Value.vStr "bar")]
    (Ids.scalar (Value.vNum 1)) rfl rfl⟩

/-- Claim C6, counterexample: `addIds` with the scalar number `7` stores
the number itself under the `id` key, not a (comma-joined) string — the
scalar branch performs no string normalization. -/
theorem c6_scalar_id_counterexample :
    (let c := createGateway [] {}
     lookupParam (Gateway.addIds c.1 c.2 (Ids.scalar (Value.vNum 7))).2 "id"
       = some (Value.vNum 7)) ∧
    Value.isStr (Value.vNum 7) = false :=
  ⟨rfl, rfl⟩

/-- Claim C6 (amended): `addIds` joins a sequence into a comma-joined
string stored under the `id` key, while a scalar is stored under `id`
verbatim (so a string scalar stays that string); in particular
`addIds([1,2,3])` and `addIds("1,2,3")` produce the identical resulting
`id` parameter value `"1,2,3"`. -/
theorem c6_addIds_amended (h : Heap) (g : Gateway) (l : List Value)
    (v : Value) :
    lookupParam (Gateway.addIds h g (Ids.arr l)).2 "id"
        = some (Value.vStr (joinIds l)) ∧
    lookupParam (Gateway.addIds h g (Ids.scalar v)).2 "id" = some v ∧
    Gateway.addIds h g (Ids.arr [Value.vNum 1, Value.vNum 2, Value.vNum 3])
      = Gateway.addIds h g (Ids.scalar (Value.vStr "1,2,3")) := by
  refine ⟨?_, ?_, ?_⟩
  · show lookupParam
      (extendParams (Heap.read h g.settings.paramsRef)
        [("id", Value.vStr (joinIds l))]) "id" = some (Value.vStr (joinIds l))
    rw [extendParams_singleton]
    exact lookupParam_setKey_self _ _ _
  · show lookupParam
      (extendParams (Heap.read h g.settings.paramsRef) [("id", v)]) "id"
      = some v
    rw [extendParams_singleton]
    exact lookupParam_setKey_self _ _ _
  · show Gateway.addParams h g
        [("id", Value.vStr (joinIds [Value.vNum 1, Value.vNum 2, Value.vNum 3]))]
      = Gateway.addParams h g [("id", Value.vStr "1,2,3")]
    have hj : joinIds [Value.vNum 1, Value.vNum 2, Value.vNum 3] = "1,2,3" := by
      decide
    rw [hj]

/-- Claim C7: `pubmedSearch("cancer", 0, 20)` yields parameters
`db=pubmed`, `term=cancer`, `retstart=0`, `retmax=20` (= end - start)
and `retmode=json`, and `generateUrl` returns exactly the expected URL,
parameters in insertion order. -/
theorem c7_search_cancer_url :
    (let r := pubmedSearch [] (Value.vStr "cancer") 0 20
     let p := Heap.read r.1 r.2.settings.paramsRef
     lookupParam p "db" = some (Value.vStr "pubmed") ∧
       lookupParam p "term" = some (Value.vStr "cancer") ∧
       lookupParam p "retstart" = some (Value.vNum 0) ∧
       lookupParam p "retmax" = some (Value.vNum (20 - 0)) ∧
       lookupParam p "retmode" = some (Value.vStr "json") ∧
       Gateway.generateUrl r.1 r.2
         = "http://eutils.ncbi.nlm.nih.gov/entrez/eutils/esearch.fcgi?db=pubmed&term=cancer&retstart=0&retmax=20&retmode=json") :=
  ⟨rfl, rfl, rfl, rfl, rfl, by decide⟩

/-- Claim C8: for every list of ids, `pubmedRecord` forces
`retmode = xml` in the parameter mapping (its responseFormat is `xml`,
overriding the `json` default). -/
theorem c8_record_retmode_xml (l : List Value) :
    lookupParam
        (Heap.read (pubmedRecord [] (Ids.arr l)).1
          (pubmedRecord [] (Ids.arr l)).2.settings.paramsRef) "retmode"
      = some (Value.vStr "xml") ∧
    (pubmedRecord [] (Ids.arr l)).2.settings.responseType = Value.vStr "xml" :=
  ⟨rfl, rfl⟩

/-- Claim C9: `addParams` called with `p1` then `p2` leaves, for every key
of `p2`, the later call's value (last-write-wins), and each call returns
the resulting parameter mapping. -/
theorem c9_addParams_last_write_wins (h : Heap) (g : Gateway)
    (p1 p2 : Params) (k : String) (v : Value)
    (hr : g.settings.paramsRef < h.length)
    (hnd : (p2.map Prod.fst).Nodup) (hmem : (k, v) ∈ p2) :
    ((Gateway.addParams h g p1).2
        = Heap.read (Gateway.addParams h g p1).1 g.settings.paramsRef) ∧
    ((Gateway.addParams (Gateway.addParams h g p1).1 g p2).2
        = Heap.read (Gateway.addParams (Gateway.addParams h g p1).1 g p2).1
            g.settings.paramsRef) ∧
    lookupParam (Gateway.addParams (Gateway.addParams h g p1).1 g p2).2 k
      = some v := by
  have hr2 : g.settings.paramsRef < (Gateway.addParams h g p1).1.length := by
    simpa [Gateway.addParams, Heap.write_length] using hr
  refine ⟨?_, ?_, ?_⟩
  · simp only [Gateway.addParams]
    rw [Heap.read_write_self _ _ _ hr]
  · simp only [Gateway.addParams] at hr2 ⊢
    rw [Heap.read_write_self _ _ _ hr2]
  · simp only [Gateway.addParams]
    exact lookupParam_extendParams_mem _ _ _ _ hnd hmem

/-- Witness for C9: a concrete gateway, `p1` setting key `k` to `old`,
`p2` overwriting it with `new`. -/
theorem c9_addParams_last_write_wins_witness :
    ((createGateway [] {}).2.settings.paramsRef
        < (createGateway [] {}).1.length ∧
      (([("k", Value.vStr "new"), ("b", Value.vStr "2")] : Params).map
          Prod.fst).Nodup ∧
      ("k", Value.vStr "new")
        ∈ ([("k", Value.vStr "new"), ("b", Value.vStr "2")] : Params)) ∧
    ((Gateway.addParams (createGateway [] {}).1 (createGateway [] {}).2
          [("a", Value.vStr "1"), ("k", Value.vStr "old")]).2
        = Heap.read
            (Gateway.addParams (createGateway [] {}).1 (createGateway [] {}).2
              [("a", Value.vStr "1"), ("k", Value.vStr "old")]).1
            (createGateway [] {}).2.settings.paramsRef) ∧
    ((Gateway.addParams
          (Gateway.addParams (createGateway [] {}).1 (createGateway [] {}).2
            [("a", Value.vStr "1"), ("k", Value.vStr "old")]).1
          (createGateway [] {}).2
          [("k", Value.vStr "new"), ("b", Value.vStr "2")]).2
        = Heap.read
            (Gateway.addParams
              (Gateway.addParams (createGateway [] {}).1
                (createGateway [] {}).2
                [("a", Value.vStr "1"), ("k", Value.vStr "old")]).1
              (createGateway [] {}).2
              [("k", Value.vStr "new"), ("b", Value.vStr "2")]).1
            (createGateway [] {}).2.settings.paramsRef) ∧
    lookupParam
        (Gateway.addParams
          (Gateway.addParams (createGateway [] {}).1 (createGateway [] {}).2
            [("a", Value.vStr "1"), ("k", Value.vStr "old")]).1
          (createGateway [] {}).2
          [("k", Value.vStr "new"), ("b", Value.vStr "2")]).2 "k"
      = some (Value.vStr "new") := by
  have hmain := c9_addParams_last_write_wins (createGateway [] {}).1
    (createGateway [] {}).2
    [("a", Value.vStr "1"), ("k", Value.vStr "old")]
    [("k", Value.vStr "new"), ("b", Value.vStr "2")] "k" (Value.vStr "new")
    (by decide) (by decide) (by decide)
  exact ⟨⟨by decide, by decide, by decide⟩, hmain.1, hmain.2.1, hmain.2.2⟩

/-- Claim C10: `generateUrl` applies `encodeURI` to the fully assembled
URL as a whole, so URI-reserved characters inside a parameter value —
here `&`, `=`, `?` and `#` inside the value `a&b=c?d#e` — survive
verbatim into the built URL (reading as separators), while `encodeURI`
does escape genuinely illegal characters such as a space. -/
theorem c10_encodeURI_whole_url :
    (let a0 := Heap.alloc [] [("term", Value.vStr "a&b=c?d#e")]
     let c := createGateway a0.1 { params := some a0.2 }
     Gateway.generateUrl c.1 c.2
       = "http://eutils.ncbi.nlm.nih.gov/entrez/eutils/esearch.fcgi?term=a&b=c?d#e&retmode=json") ∧
    encodeURI "a&b=c?d#e" = "a&b=c?d#e" ∧
    encodeURI "a b" = "a%20b" :=
  ⟨by decide, by decide, by decide⟩

end NodeNcbi
